import Mathlib

/-!
Verification of the git-migrate forge-migration pipeline: a shallow
embedding of the orchestrator (`main` in ref.go), the forge-client
dispatch (`getForgeClient`), the environment-based configuration
construction, and the auth flow's `.env` persistence (auth_ref.go),
together with theorems settling the specification's claims about them.
-/

namespace GitMigrate

/-- Embeds `Config` from ref.go: source/target forge identity, credentials
and behavior flags. -/
structure Config where
  SourceType : String
  SourceDomain : String
  SourceUsername : String
  SourceToken : String
  TargetType : String
  TargetDomain : String
  TargetUsername : String
  TargetToken : String
  TargetRepoOwner : String
  MakePrivate : Bool
  EnableWiki : Bool
  EnableMirror : Bool
deriving Repr, DecidableEq

/-- Embeds `Repository` from ref.go. -/
structure Repository where
  Name : String
  CloneURL : String
  SSHURL : String
deriving Repr, DecidableEq

/-- The process environment, as a finite key/value list; the first
binding of a key is the visible one. -/
abbrev Env := List (String × String)

/-- Look up a key in the environment. -/
def getEnvVar (env : Env) (key : String) : Option String :=
  (env.find? (fun p => p.1 == key)).map Prod.snd

/-- Modelled from the spec: the `getEnv` helper called by `main` in ref.go
is absent from src (the file is truncated at line 136); per the spec the
configuration is a flat key/value set with per-field defaults, so `getEnv`
returns the environment value when the key is set and the fallback
otherwise. -/
def getEnv (env : Env) (key fallback : String) : String :=
  (getEnvVar env key).getD fallback

/-- Embeds the `Config` construction at the top of `main` (ref.go lines
43-59): each field read from its environment key with the literal default
shown in the source; booleans compare the string against "true". -/
def buildConfig (env : Env) : Config :=
  { SourceType := getEnv env "SOURCE_TYPE" "github"
    SourceDomain := getEnv env "SOURCE_DOMAIN" "github.com"
    SourceUsername := getEnv env "SOURCE_USERNAME" ""
    SourceToken := getEnv env "SOURCE_TOKEN" ""
    TargetType := getEnv env "TARGET_TYPE" "gitea"
    TargetDomain := getEnv env "TARGET_DOMAIN" ""
    TargetUsername := getEnv env "TARGET_USERNAME" ""
    TargetToken := getEnv env "TARGET_TOKEN" ""
    TargetRepoOwner := getEnv env "TARGET_REPO_OWNER" ""
    MakePrivate := getEnv env "MAKE_PRIVATE" "true" == "true"
    EnableWiki := getEnv env "ENABLE_WIKI" "true" == "true"
    EnableMirror := getEnv env "ENABLE_MIRROR" "false" == "true" }

/-- The three concrete client families of ref.go (`GiteaClient` serves
both "gitea" and "forgejo"). -/
inductive ForgeKind where
  | github : ForgeKind
  | gitlab : ForgeKind
  | gitea : ForgeKind
deriving Repr, DecidableEq

/-- Embeds `getForgeClient` (ref.go lines 97-108): the switch over the
forge-type string, `none` for the default branch returning nil. -/
def getForgeClient (forgeType : String) : Option ForgeKind :=
  if forgeType == "github" then some ForgeKind.github
  else if forgeType == "gitlab" then some ForgeKind.gitlab
  else if forgeType == "gitea" || forgeType == "forgejo" then some ForgeKind.gitea
  else none

/-- The external world the orchestrator interacts with: what the source
client's `FetchRepos` returns, and how the target API answers each
`MigrateRepo` call. `migrateOk repo n` is the outcome the target would
give the (n+1)-th migration call for `repo`, so an oracle with
`migrateOk r 0 = false` and `migrateOk r 1 = true` models a 503 answered
by a 201 on a second attempt. -/
structure World where
  fetchResult : Except String (List Repository)
  migrateOk : Repository → Nat → Bool

/-- How a run of `main` ends: one of the `log.Fatalf` exits, or normal
completion carrying the per-repository outcomes in processing order. -/
inductive RunResult where
  | fatalConfig : RunResult
  | fatalSourceForge : RunResult
  | fatalTargetForge : RunResult
  | fatalFetch : RunResult
  | done : List (Repository × Bool) → RunResult
deriving Repr, DecidableEq

/-- Observable trace of a run: how many `FetchRepos` calls were issued,
the sequence of repositories submitted to `MigrateRepo` (one entry per
invocation, in invocation order), and the final result. -/
structure RunTrace where
  fetchCalls : Nat
  migrateCalls : List Repository
  result : RunResult
deriving Repr, DecidableEq

/-- Embeds `main` after config construction (ref.go lines 61-95):
validate, resolve the source client (nil is fatal), resolve the target
client (nil is fatal), fetch once (an error is fatal), then migrate each
fetched repository in order, logging a failure and continuing; the loop
passes every repository to `MigrateRepo` exactly once with no per-item
validation and no retry. `validate` abstracts `validateConfig`, whose
body is absent from src; it performs no network calls. -/
def run (validate : Config → Bool) (w : World) (config : Config) : RunTrace :=
  if validate config then
    match getForgeClient config.SourceType with
    | none => ⟨0, [], RunResult.fatalSourceForge⟩
    | some _ =>
      match getForgeClient config.TargetType with
      | none => ⟨0, [], RunResult.fatalTargetForge⟩
      | some _ =>
        match w.fetchResult with
        | Except.error _ => ⟨1, [], RunResult.fatalFetch⟩
        | Except.ok repos =>
          ⟨1, repos, RunResult.done (repos.map (fun repo => (repo, w.migrateOk repo 0)))⟩
  else ⟨0, [], RunResult.fatalConfig⟩

/-- The n-th page (0-based) that a source API serving the full list
`remoteRepos` in pages of `pageSize` returns. -/
def apiPage (pageSize : Nat) (remoteRepos : List Repository) (n : Nat) : List Repository :=
  (remoteRepos.drop (pageSize * n)).take pageSize

/-- Page-requesting loop: take the next page; if it is shorter than the
requested page size stop with it, otherwise keep it and request the next
page. `fuel` bounds the number of requests. -/
def fetchPagesGo (pageSize : Nat) : Nat → List Repository → List Repository
  | 0, _ => []
  | fuel + 1, remaining =>
    let page := remaining.take pageSize
    if page.length < pageSize then page
    else page ++ fetchPagesGo pageSize fuel (remaining.drop pageSize)

/-- Modelled from the spec: the pagination and response-mapping half of
`GitHubClient.FetchRepos` is absent from src (ref.go is truncated at line
136, inside the function, right after the first request is issued); per
the spec the client keeps requesting pages until a page returns fewer
items than the requested page size. The source API's full repository
list is `remoteRepos` and it is served page by page. -/
def fetchReposModel (pageSize : Nat) (remoteRepos : List Repository) : List Repository :=
  fetchPagesGo pageSize (remoteRepos.length + 1) remoteRepos

/-- Embeds `Forge` from auth_ref.go: the values collected by the
interactive auth form. -/
structure Forge where
  SourceType : String
  SourceUsername : String
  SourceToken : String
  SourceDomain : String
  TargetType : String
  TargetUsername : String
  TargetToken : String
  TargetDomain : String
  MakePrivate : Bool
  EnableMirror : Bool
deriving Repr, DecidableEq

/-- Go's `fmt.Sprintf("%t", b)`. -/
def goBoolString (b : Bool) : String :=
  if b then "true" else "false"

/-- Embeds `writeEnvFile` (auth_ref.go lines 101-129): merge the new
variables over the existing `.env` contents, new bindings winning. -/
def writeEnvFile (vars existing : Env) : Env :=
  vars ++ existing

/-- Embeds the `envVars` map that `CompleteAuth` persists (auth_ref.go
lines 207-220): the exact keys and values written to `.env`. -/
def completeAuthVars (f : Forge) : Env :=
  [("SRC_TYPE", f.SourceType),
   ("SRC_USER", f.SourceUsername),
   ("SRC_DOMAIN", f.SourceDomain),
   ("SRC_TOKEN", f.SourceToken),
   ("TARGET_TYPE", f.TargetType),
   ("TARGET_USER", f.TargetUsername),
   ("TARGET_DOMAIN", f.TargetDomain),
   ("TARGET_TOKEN", f.TargetToken),
   ("MAKE_PRIVATE", goBoolString f.MakePrivate),
   ("ENABLE_MIRROR", goBoolString f.EnableMirror)]

/-- The environment produced by running `CompleteAuth` over an existing
`.env`: `writeEnvFile` applied to the persisted variable map. -/
def completeAuthEnv (f : Forge) (existing : Env) : Env :=
  writeEnvFile (completeAuthVars f) existing

/-- Sample repository used to instantiate theorems. -/
def sampleRepoA : Repository :=
  ⟨"repoA", "https://github.com/alice/repoA.git", "git@github.com:alice/repoA.git"⟩

/-- Second sample repository. -/
def sampleRepoB : Repository :=
  ⟨"repoB", "https://github.com/alice/repoB.git", ""⟩

/-- A fetched record with empty name and empty clone URL. -/
def blankRepo : Repository := ⟨"", "", ""⟩

/-- A well-formed sample configuration (github source, gitea target). -/
def sampleConfig : Config :=
  { SourceType := "github"
    SourceDomain := "github.com"
    SourceUsername := "alice"
    SourceToken := "srctok"
    TargetType := "gitea"
    TargetDomain := "git.example.com"
    TargetUsername := "alice"
    TargetToken := "tgttok"
    TargetRepoOwner := ""
    MakePrivate := true
    EnableWiki := true
    EnableMirror := false }

/-- A configuration whose target type is "github", which is not a valid
target kind (targets are gitea, forgejo, gitlab). -/
def badTargetConfig : Config :=
  { sampleConfig with TargetType := "github" }

/-- Modelled from the spec: `validateConfig` is absent from src (ref.go
is truncated at line 136); per the spec validation checks that the
source kind is one of github, gitlab, gitea, forgejo, that the target
kind is one of the target subset gitea, forgejo, gitlab, and that the
required credentials are present for both sides (source username and
token; target username, token and domain). It performs no network
calls. -/
def validateConfig (config : Config) : Bool :=
  (config.SourceType == "github" || config.SourceType == "gitlab" ||
   config.SourceType == "gitea" || config.SourceType == "forgejo") &&
  (config.TargetType == "gitea" || config.TargetType == "forgejo" ||
   config.TargetType == "gitlab") &&
  config.SourceUsername != "" && config.SourceToken != "" &&
  config.TargetUsername != "" && config.TargetToken != "" &&
  config.TargetDomain != ""

/-- Claim C1: for every repository list returned by FetchRepos containing
K repositories, the orchestrator attempts MigrateRepo exactly K times —
once per repository — and since the migration oracle `w.migrateOk` is
arbitrary, a failure on any repository never prevents an attempt on any
subsequent one. -/
theorem migrate_attempted_once_per_repo (validate : Config → Bool) (w : World)
    (config : Config) (repos : List Repository)
    (hv : validate config = true)
    (hs : (getForgeClient config.SourceType).isSome = true)
    (ht : (getForgeClient config.TargetType).isSome = true)
    (hf : w.fetchResult = Except.ok repos) :
    (run validate w config).migrateCalls.length = repos.length := by
  obtain ⟨ks, hks⟩ := Option.isSome_iff_exists.mp hs
  obtain ⟨kt, hkt⟩ := Option.isSome_iff_exists.mp ht
  simp [run, hv, hks, hkt, hf]

/-- Witness for C1: a concrete two-repository run in which every
migration fails still yields exactly two MigrateRepo calls. -/
theorem migrate_attempted_once_per_repo_witness :
    ((fun _ : Config => true) sampleConfig = true ∧
     (getForgeClient sampleConfig.SourceType).isSome = true ∧
     (getForgeClient sampleConfig.TargetType).isSome = true ∧
     (World.mk (Except.ok [sampleRepoA, sampleRepoB]) (fun _ _ => false)).fetchResult
       = Except.ok [sampleRepoA, sampleRepoB]) ∧
    (run (fun _ => true)
        (World.mk (Except.ok [sampleRepoA, sampleRepoB]) (fun _ _ => false))
        sampleConfig).migrateCalls.length = [sampleRepoA, sampleRepoB].length :=
  ⟨⟨rfl, by decide, by decide, rfl⟩,
   migrate_attempted_once_per_repo _ _ _ _ rfl (by decide) (by decide) rfl⟩

/-- Claim C7: within one run the orchestrator invokes MigrateRepo on the
repositories in exactly the order FetchRepos returned them. -/
theorem migrate_order_equals_fetch_order (validate : Config → Bool) (w : World)
    (config : Config) (repos : List Repository)
    (hv : validate config = true)
    (hs : (getForgeClient config.SourceType).isSome = true)
    (ht : (getForgeClient config.TargetType).isSome = true)
    (hf : w.fetchResult = Except.ok repos) :
    (run validate w config).migrateCalls = repos := by
  obtain ⟨ks, hks⟩ := Option.isSome_iff_exists.mp hs
  obtain ⟨kt, hkt⟩ := Option.isSome_iff_exists.mp ht
  simp [run, hv, hks, hkt, hf]

/-- Witness for C7: the concrete two-repository run processes repoA then
repoB, the fetch order. -/
theorem migrate_order_equals_fetch_order_witness :
    ((fun _ : Config => true) sampleConfig = true ∧
     (getForgeClient sampleConfig.SourceType).isSome = true ∧
     (getForgeClient sampleConfig.TargetType).isSome = true ∧
     (World.mk (Except.ok [sampleRepoA, sampleRepoB]) (fun _ _ => true)).fetchResult
       = Except.ok [sampleRepoA, sampleRepoB]) ∧
    (run (fun _ => true)
        (World.mk (Except.ok [sampleRepoA, sampleRepoB]) (fun _ _ => true))
        sampleConfig).migrateCalls = [sampleRepoA, sampleRepoB] :=
  ⟨⟨rfl, by decide, by decide, rfl⟩,
   migrate_order_equals_fetch_order _ _ _ _ rfl (by decide) (by decide) rfl⟩

/-- Claim C6: when FetchRepos fails, the run terminates fatally and zero
MigrateRepo calls are made. -/
theorem fetch_failure_aborts_run (validate : Config → Bool) (w : World)
    (config : Config) (msg : String)
    (hv : validate config = true)
    (hs : (getForgeClient config.SourceType).isSome = true)
    (ht : (getForgeClient config.TargetType).isSome = true)
    (hf : w.fetchResult = Except.error msg) :
    (run validate w config).result = RunResult.fatalFetch ∧
    (run validate w config).migrateCalls = [] := by
  obtain ⟨ks, hks⟩ := Option.isSome_iff_exists.mp hs
  obtain ⟨kt, hkt⟩ := Option.isSome_iff_exists.mp ht
  simp [run, hv, hks, hkt, hf]

/-- Witness for C6: a concrete run whose fetch errors ends fatal with no
migrations. -/
theorem fetch_failure_aborts_run_witness :
    ((fun _ : Config => true) sampleConfig = true ∧
     (getForgeClient sampleConfig.SourceType).isSome = true ∧
     (getForgeClient sampleConfig.TargetType).isSome = true ∧
     (World.mk (Except.error "boom") (fun _ _ => true)).fetchResult
       = Except.error "boom") ∧
    ((run (fun _ => true) (World.mk (Except.error "boom") (fun _ _ => true))
        sampleConfig).result = RunResult.fatalFetch ∧
     (run (fun _ => true) (World.mk (Except.error "boom") (fun _ _ => true))
        sampleConfig).migrateCalls = []) :=
  ⟨⟨rfl, by decide, by decide, rfl⟩,
   fetch_failure_aborts_run _ _ _ _ rfl (by decide) (by decide) rfl⟩

/-- Claim C3: for every configuration whose SourceType is not one of
github, gitlab, gitea, forgejo, or whose TargetType is not one of the
target kinds gitea, forgejo, gitlab — in particular TargetType "github",
which the dispatch switch would resolve but which is not a valid target
kind — the run driven by the spec-modelled `validateConfig` terminates
with the fatal configuration error and issues zero FetchRepos and zero
MigrateRepo calls. -/
theorem unresolvable_kind_fails_fast (w : World) (config : Config)
    (h : (config.SourceType ≠ "github" ∧ config.SourceType ≠ "gitlab" ∧
          config.SourceType ≠ "gitea" ∧ config.SourceType ≠ "forgejo") ∨
         (config.TargetType ≠ "gitea" ∧ config.TargetType ≠ "forgejo" ∧
          config.TargetType ≠ "gitlab")) :
    (run validateConfig w config).fetchCalls = 0 ∧
    (run validateConfig w config).migrateCalls = [] ∧
    (run validateConfig w config).result = RunResult.fatalConfig := by
  have hv : validateConfig config = false := by
    rcases h with ⟨h1, h2, h3, h4⟩ | ⟨h1, h2, h3⟩ <;>
      simp [validateConfig, h1, h2, h3]
    intro h
    exact absurd h h4
  simp [run, hv]

/-- Witness for C3: with target type "github" — resolvable by the
dispatch switch but not a valid target kind — the run is fatal with no
fetch and no migrations. -/
theorem unresolvable_kind_fails_fast_witness :
    ((badTargetConfig.SourceType ≠ "github" ∧
      badTargetConfig.SourceType ≠ "gitlab" ∧
      badTargetConfig.SourceType ≠ "gitea" ∧
      badTargetConfig.SourceType ≠ "forgejo") ∨
     (badTargetConfig.TargetType ≠ "gitea" ∧
      badTargetConfig.TargetType ≠ "forgejo" ∧
      badTargetConfig.TargetType ≠ "gitlab")) ∧
    ((run validateConfig (World.mk (Except.ok []) (fun _ _ => true))
        badTargetConfig).fetchCalls = 0 ∧
     (run validateConfig (World.mk (Except.ok []) (fun _ _ => true))
        badTargetConfig).migrateCalls = [] ∧
     (run validateConfig (World.mk (Except.ok []) (fun _ _ => true))
        badTargetConfig).result = RunResult.fatalConfig) :=
  ⟨Or.inr ⟨by decide, by decide, by decide⟩,
   unresolvable_kind_fails_fast _ _ (Or.inr ⟨by decide, by decide, by decide⟩)⟩

/-- Claim C4 counterexample: against a target that answers the first
migration call for repoA with a failure (503) and any later call with
success (201), the orchestrator makes exactly one MigrateRepo call and
records failure as repoA's final outcome — it does not retry, so the
claimed bounded retry and the claimed final success are both false on
the code. -/
theorem no_retry_counterexample :
    (run (fun _ => true)
        (World.mk (Except.ok [sampleRepoA]) (fun _ n => !(n == 0)))
        sampleConfig).migrateCalls = [sampleRepoA] ∧
    (run (fun _ => true)
        (World.mk (Except.ok [sampleRepoA]) (fun _ n => !(n == 0)))
        sampleConfig).result = RunResult.done [(sampleRepoA, false)] := by
  decide

/-- Claim C4 as amended: the orchestrator performs exactly one MigrateRepo
attempt per fetched repository and records the first attempt's outcome;
a transient failure is never retried. -/
theorem single_attempt_first_outcome_recorded (validate : Config → Bool)
    (w : World) (config : Config) (repos : List Repository)
    (hv : validate config = true)
    (hs : (getForgeClient config.SourceType).isSome = true)
    (ht : (getForgeClient config.TargetType).isSome = true)
    (hf : w.fetchResult = Except.ok repos) :
    (run validate w config).result
      = RunResult.done (repos.map (fun r => (r, w.migrateOk r 0))) ∧
    ∀ r : Repository, (run validate w config).migrateCalls.count r = repos.count r := by
  obtain ⟨ks, hks⟩ := Option.isSome_iff_exists.mp hs
  obtain ⟨kt, hkt⟩ := Option.isSome_iff_exists.mp ht
  simp [run, hv, hks, hkt, hf]

/-- Witness for amended C4: in the 503-then-201 world, repoA is attempted
exactly once and its recorded outcome is the first attempt's failure. -/
theorem single_attempt_first_outcome_recorded_witness :
    ((fun _ : Config => true) sampleConfig = true ∧
     (getForgeClient sampleConfig.SourceType).isSome = true ∧
     (getForgeClient sampleConfig.TargetType).isSome = true ∧
     (World.mk (Except.ok [sampleRepoA]) (fun _ n => !(n == 0))).fetchResult
       = Except.ok [sampleRepoA]) ∧
    ((run (fun _ => true)
        (World.mk (Except.ok [sampleRepoA]) (fun _ n => !(n == 0)))
        sampleConfig).result
      = RunResult.done
          ([sampleRepoA].map (fun r =>
            (r, (World.mk (Except.ok [sampleRepoA])
              (fun _ n => !(n == 0))).migrateOk r 0))) ∧
     ∀ r : Repository,
       (run (fun _ => true)
          (World.mk (Except.ok [sampleRepoA]) (fun _ n => !(n == 0)))
          sampleConfig).migrateCalls.count r = [sampleRepoA].count r) :=
  ⟨⟨rfl, by decide, by decide, rfl⟩,
   single_attempt_first_outcome_recorded _ _ _ _ rfl (by decide) (by decide) rfl⟩

/-- Claim C5 counterexample: a fetched record with empty Name and empty
CloneURL is submitted to MigrateRepo — the orchestrator's loop has no
per-item validation, so the claimed pre-call rejection is false on the
code. -/
theorem blank_repo_submitted_counterexample :
    blankRepo.Name = "" ∧ blankRepo.CloneURL = "" ∧
    (run (fun _ => true)
        (World.mk (Except.ok [blankRepo]) (fun _ _ => false))
        sampleConfig).migrateCalls = [blankRepo] := by
  decide

/-- Claim C5 as amended: the orchestrator performs no per-item
validation — every fetched repository, including one with an empty Name
or an empty CloneURL, is submitted to MigrateRepo. -/
theorem blank_repo_still_migrated (validate : Config → Bool) (w : World)
    (config : Config) (repos : List Repository) (r : Repository)
    (hv : validate config = true)
    (hs : (getForgeClient config.SourceType).isSome = true)
    (ht : (getForgeClient config.TargetType).isSome = true)
    (hf : w.fetchResult = Except.ok repos)
    (hr : r ∈ repos)
    (_hblank : r.Name = "" ∨ r.CloneURL = "") :
    r ∈ (run validate w config).migrateCalls := by
  obtain ⟨ks, hks⟩ := Option.isSome_iff_exists.mp hs
  obtain ⟨kt, hkt⟩ := Option.isSome_iff_exists.mp ht
  simpa [run, hv, hks, hkt, hf] using hr

/-- Witness for amended C5: the blank record fetched alongside repoA is
among the repositories submitted to MigrateRepo. -/
theorem blank_repo_still_migrated_witness :
    ((fun _ : Config => true) sampleConfig = true ∧
     (getForgeClient sampleConfig.SourceType).isSome = true ∧
     (getForgeClient sampleConfig.TargetType).isSome = true ∧
     (World.mk (Except.ok [sampleRepoA, blankRepo]) (fun _ _ => true)).fetchResult
       = Except.ok [sampleRepoA, blankRepo] ∧
     blankRepo ∈ [sampleRepoA, blankRepo] ∧
     (blankRepo.Name = "" ∨ blankRepo.CloneURL = "")) ∧
    blankRepo ∈ (run (fun _ => true)
        (World.mk (Except.ok [sampleRepoA, blankRepo]) (fun _ _ => true))
        sampleConfig).migrateCalls :=
  ⟨⟨rfl, by decide, by decide, rfl, by decide, Or.inl (by decide)⟩,
   blank_repo_still_migrated _ _ _ _ _ rfl (by decide) (by decide) rfl
     (by decide) (Or.inl (by decide))⟩

/-- With a positive page size and enough fuel, the page-requesting loop
returns the remote list in full: each step either ends on a short final
page or consumes one full page and recurses. -/
theorem fetchPagesGo_complete (pageSize : Nat) (hp : 0 < pageSize) :
    ∀ fuel remaining, List.length remaining < fuel →
      fetchPagesGo pageSize fuel remaining = remaining := by
  intro fuel
  induction fuel with
  | zero => intro remaining h; omega
  | succ n ih =>
    intro remaining h
    by_cases hlen : remaining.length < pageSize
    · have htake : remaining.take pageSize = remaining :=
        List.take_of_length_le (Nat.le_of_lt hlen)
      simp [fetchPagesGo, htake, hlen]
    · push_neg at hlen
      have htake : (remaining.take pageSize).length = pageSize := by
        simp [List.length_take]; omega
      have hnlt : ¬ ((remaining.take pageSize).length < pageSize) := by omega
      have hdrop : (remaining.drop pageSize).length < n := by
        simp [List.length_drop]
        omega
      simp only [fetchPagesGo, if_neg hnlt]
      rw [ih _ hdrop, List.take_append_drop]

/-- Claim C2: when the source's repository list spans three pages of the
forge's page size, FetchRepos returns the concatenation of all three
pages — the full remote list — not only the first page; the model keeps
requesting pages until one returns fewer items than the page size. -/
theorem fetchRepos_exhausts_pagination (pageSize : Nat)
    (remoteRepos : List Repository)
    (hp : 0 < pageSize)
    (_hlo : 2 * pageSize < remoteRepos.length)
    (hhi : remoteRepos.length ≤ 3 * pageSize) :
    fetchReposModel pageSize remoteRepos = remoteRepos ∧
    fetchReposModel pageSize remoteRepos
      = apiPage pageSize remoteRepos 0 ++ apiPage pageSize remoteRepos 1
          ++ apiPage pageSize remoteRepos 2 := by
  have hall : fetchReposModel pageSize remoteRepos = remoteRepos :=
    fetchPagesGo_complete pageSize hp _ _ (Nat.lt_succ_self _)
  refine ⟨hall, ?_⟩
  rw [hall]
  have h0 : remoteRepos
      = remoteRepos.take pageSize ++ remoteRepos.drop pageSize :=
    (List.take_append_drop _ _).symm
  have h1 : remoteRepos.drop pageSize
      = (remoteRepos.drop pageSize).take pageSize
          ++ (remoteRepos.drop pageSize).drop pageSize :=
    (List.take_append_drop _ _).symm
  have h2 : (remoteRepos.drop pageSize).drop pageSize
      = remoteRepos.drop (pageSize + pageSize) := by
    rw [List.drop_drop]
  have h3 : (remoteRepos.drop (pageSize + pageSize)).take pageSize
      = remoteRepos.drop (pageSize + pageSize) := by
    refine List.take_of_length_le ?_
    simp [List.length_drop]
    omega
  simp only [apiPage, Nat.mul_zero, Nat.mul_one, List.drop_zero]
  have hm2 : pageSize * 2 = pageSize + pageSize := by ring
  rw [hm2, h3]
  conv_lhs => rw [h0, h1, h2]
  rw [List.append_assoc]

/-- Witness for C2: page size 2 with five concrete repositories (three
pages: 2 + 2 + 1) — the model returns all five. -/
theorem fetchRepos_exhausts_pagination_witness :
    (0 < 2 ∧
     2 * 2 < (List.length [sampleRepoA, sampleRepoB, blankRepo,
       Repository.mk "d" "urlD" "", Repository.mk "e" "urlE" ""]) ∧
     (List.length [sampleRepoA, sampleRepoB, blankRepo,
       Repository.mk "d" "urlD" "", Repository.mk "e" "urlE" ""]) ≤ 3 * 2) ∧
    (fetchReposModel 2 [sampleRepoA, sampleRepoB, blankRepo,
       Repository.mk "d" "urlD" "", Repository.mk "e" "urlE" ""]
      = [sampleRepoA, sampleRepoB, blankRepo,
         Repository.mk "d" "urlD" "", Repository.mk "e" "urlE" ""] ∧
     fetchReposModel 2 [sampleRepoA, sampleRepoB, blankRepo,
       Repository.mk "d" "urlD" "", Repository.mk "e" "urlE" ""]
      = apiPage 2 [sampleRepoA, sampleRepoB, blankRepo,
           Repository.mk "d" "urlD" "", Repository.mk "e" "urlE" ""] 0
        ++ apiPage 2 [sampleRepoA, sampleRepoB, blankRepo,
           Repository.mk "d" "urlD" "", Repository.mk "e" "urlE" ""] 1
        ++ apiPage 2 [sampleRepoA, sampleRepoB, blankRepo,
           Repository.mk "d" "urlD" "", Repository.mk "e" "urlE" ""] 2) :=
  ⟨⟨by decide, by decide, by decide⟩,
   fetchRepos_exhausts_pagination 2 _ (by decide) (by decide) (by decide)⟩

/-- Claim C8: when MAKE_PRIVATE, ENABLE_WIKI, or ENABLE_MIRROR is set,
the corresponding boolean Config field is true exactly when the string
equals the literal "true"; any other string yields false. -/
theorem bool_flags_parse_true_literal (env : Env) (s1 s2 s3 : String)
    (h1 : getEnvVar env "MAKE_PRIVATE" = some s1)
    (h2 : getEnvVar env "ENABLE_WIKI" = some s2)
    (h3 : getEnvVar env "ENABLE_MIRROR" = some s3) :
    (buildConfig env).MakePrivate = (s1 == "true") ∧
    (buildConfig env).EnableWiki = (s2 == "true") ∧
    (buildConfig env).EnableMirror = (s3 == "true") := by
  simp [buildConfig, getEnv, h1, h2, h3]

/-- Witness for C8: a concrete environment where MAKE_PRIVATE is "true",
ENABLE_WIKI is "yes", and ENABLE_MIRROR is "false" yields true, false,
false. -/
theorem bool_flags_parse_true_literal_witness :
    (getEnvVar [("MAKE_PRIVATE", "true"), ("ENABLE_WIKI", "yes"),
        ("ENABLE_MIRROR", "false")] "MAKE_PRIVATE" = some "true" ∧
     getEnvVar [("MAKE_PRIVATE", "true"), ("ENABLE_WIKI", "yes"),
        ("ENABLE_MIRROR", "false")] "ENABLE_WIKI" = some "yes" ∧
     getEnvVar [("MAKE_PRIVATE", "true"), ("ENABLE_WIKI", "yes"),
        ("ENABLE_MIRROR", "false")] "ENABLE_MIRROR" = some "false") ∧
    ((buildConfig [("MAKE_PRIVATE", "true"), ("ENABLE_WIKI", "yes"),
        ("ENABLE_MIRROR", "false")]).MakePrivate = ("true" == "true") ∧
     (buildConfig [("MAKE_PRIVATE", "true"), ("ENABLE_WIKI", "yes"),
        ("ENABLE_MIRROR", "false")]).EnableWiki = ("yes" == "true") ∧
     (buildConfig [("MAKE_PRIVATE", "true"), ("ENABLE_WIKI", "yes"),
        ("ENABLE_MIRROR", "false")]).EnableMirror = ("false" == "true")) :=
  ⟨⟨by decide, by decide, by decide⟩,
   bool_flags_parse_true_literal _ _ _ _ (by decide) (by decide) (by decide)⟩

/-- Claim C9: the round trip from the auth form through `.env` to the
orchestrator's Config loses the source identity and the target username,
because CompleteAuth persists SRC_TYPE, SRC_USER, SRC_DOMAIN, SRC_TOKEN
and TARGET_USER while the orchestrator reads SOURCE_TYPE,
SOURCE_USERNAME, SOURCE_DOMAIN, SOURCE_TOKEN and TARGET_USERNAME: the
resulting Config keeps the built-in defaults for those fields whatever
the user entered, and only TARGET_TYPE, TARGET_DOMAIN, TARGET_TOKEN,
MAKE_PRIVATE and ENABLE_MIRROR survive. -/
theorem auth_env_round_trip_loses_source_identity (f : Forge) :
    (buildConfig (completeAuthEnv f [])).SourceType = "github" ∧
    (buildConfig (completeAuthEnv f [])).SourceDomain = "github.com" ∧
    (buildConfig (completeAuthEnv f [])).SourceUsername = "" ∧
    (buildConfig (completeAuthEnv f [])).SourceToken = "" ∧
    (buildConfig (completeAuthEnv f [])).TargetUsername = "" ∧
    (buildConfig (completeAuthEnv f [])).TargetType = f.TargetType ∧
    (buildConfig (completeAuthEnv f [])).TargetDomain = f.TargetDomain ∧
    (buildConfig (completeAuthEnv f [])).TargetToken = f.TargetToken ∧
    (buildConfig (completeAuthEnv f [])).MakePrivate = f.MakePrivate ∧
    (buildConfig (completeAuthEnv f [])).EnableMirror = f.EnableMirror := by
  obtain ⟨st, su, sk, sd, tt, tu, tk, td, mp, em⟩ := f
  cases mp <;> cases em <;>
    exact ⟨rfl, rfl, rfl, rfl, rfl, rfl, rfl, rfl, rfl, rfl⟩

/-- Claim C10: every Config field whose environment key is unset takes
its built-in default — SourceType "github", SourceDomain "github.com",
TargetType "gitea", MakePrivate true, EnableWiki true, EnableMirror
false. -/
theorem unset_env_yields_defaults (env : Env)
    (h1 : getEnvVar env "SOURCE_TYPE" = none)
    (h2 : getEnvVar env "SOURCE_DOMAIN" = none)
    (h3 : getEnvVar env "TARGET_TYPE" = none)
    (h4 : getEnvVar env "MAKE_PRIVATE" = none)
    (h5 : getEnvVar env "ENABLE_WIKI" = none)
    (h6 : getEnvVar env "ENABLE_MIRROR" = none) :
    (buildConfig env).SourceType = "github" ∧
    (buildConfig env).SourceDomain = "github.com" ∧
    (buildConfig env).TargetType = "gitea" ∧
    (buildConfig env).MakePrivate = true ∧
    (buildConfig env).EnableWiki = true ∧
    (buildConfig env).EnableMirror = false := by
  simp [buildConfig, getEnv, h1, h2, h3, h4, h5, h6]

/-- Witness for C10: with no environment set at all, the defaults hold —
in particular repositories are requested private, with wiki, without
mirroring. -/
theorem unset_env_yields_defaults_witness :
    (getEnvVar [] "SOURCE_TYPE" = none ∧
     getEnvVar [] "SOURCE_DOMAIN" = none ∧
     getEnvVar [] "TARGET_TYPE" = none ∧
     getEnvVar [] "MAKE_PRIVATE" = none ∧
     getEnvVar [] "ENABLE_WIKI" = none ∧
     getEnvVar [] "ENABLE_MIRROR" = none) ∧
    ((buildConfig []).SourceType = "github" ∧
     (buildConfig []).SourceDomain = "github.com" ∧
     (buildConfig []).TargetType = "gitea" ∧
     (buildConfig []).MakePrivate = true ∧
     (buildConfig []).EnableWiki = true ∧
     (buildConfig []).EnableMirror = false) :=
  ⟨⟨rfl, rfl, rfl, rfl, rfl, rfl⟩,
   unset_env_yields_defaults [] rfl rfl rfl rfl rfl rfl⟩

end GitMigrate
